import Mathlib

/-!
# Shallow embedding of SimpleTranscribe-rs

This file embeds the two source files of the repository,
`src/audio_parser.rs` (`parse_audio_file`) and `src/transcriber.rs`
(`Transcriber::transcribe` and its output types), and proves the claims of
the specification against them.

The external engines are modelled as oracles:

* the symphonia format reader is modelled by the finite trace of results its
  `next_packet` calls produce (`NextPacketEvent`), with each packet carrying
  the outcome the symphonia decoder produces for it (`DecodeOutcome`);
* `whisper_rs::convert_stereo_to_mono_audio` is an abstract parameter
  `conv : List α → Option (List α)` (it is fallible in the source and is
  `unwrap`ped there); audio samples are an abstract type `α` standing for
  the source's `f32`;
* the whisper inference context/state is a structure of `Except`-valued
  functions mirroring the fallible calls `create_state`, `full`,
  `full_n_segments`, `full_get_segment_text`, `full_get_segment_t0` and
  `full_get_segment_t1`.

Rust `panic!` / `unimplemented!` / failed `unwrap` / failed `expect` are
modelled by the `POutcome.panic` constructor: a computation either returns
normally (`POutcome.ok`) or aborts the whole request with a message.
-/

namespace SimpleTranscribe

/-- Result of running Rust code that may abort the process: either a normal
value, or a `panic!`/`unimplemented!`/failed-`unwrap`/failed-`expect` abort
carrying the panic message. -/
inductive POutcome (β : Type) where
  | ok (val : β)
  | panic (msg : String)
deriving DecidableEq, Repr

/-- Sequencing of possibly-aborting computations: a panic propagates. -/
def POutcome.bind {β γ : Type} : POutcome β → (β → POutcome γ) → POutcome γ
  | .ok v, f => f v
  | .panic m, _ => .panic m

@[simp]
theorem POutcome.bind_ok {β γ : Type} (v : β) (f : β → POutcome γ) :
    POutcome.bind (POutcome.ok v) f = f v := rfl

@[simp]
theorem POutcome.bind_panic {β γ : Type} (m : String) (f : β → POutcome γ) :
    POutcome.bind (POutcome.panic m) f = POutcome.panic m := rfl

/-- Rust `Result::expect(msg)`: return the `Ok` value or abort with `msg`
(the source appends the underlying error's text). -/
def expectE {β : Type} (e : Except String β) (msg : String) : POutcome β :=
  match e with
  | .ok v => POutcome.ok v
  | .error err => POutcome.panic (msg ++ ": " ++ err)

@[simp]
theorem expectE_ok {β : Type} (v : β) (msg : String) :
    expectE (Except.ok v) msg = POutcome.ok v := rfl

@[simp]
theorem expectE_error {β : Type} (err : String) (msg : String) :
    expectE (Except.error err : Except String β) msg
      = POutcome.panic (msg ++ ": " ++ err) := rfl

/-! ## Audio side: the data `parse_audio_file` consumes -/

/-- The fields of `track.codec_params` that `parse_audio_file` inspects
(audio_parser.rs:42-60). `channels` is the declared channel count
(`channels.count()` in the source); `none` models an undeclared field. -/
structure Track where
  sample_rate : Option Nat
  channels : Option Nat
  id : Nat
deriving DecidableEq, Repr

/-- One decoded audio frame: its channel layout (`audio_buf.spec().channels.count()`)
and its interleaved f32 samples as copied by `copy_interleaved_ref` into the
sample buffer (audio_parser.rs:121-123). -/
structure Frame (α : Type) where
  channel_count : Nat
  samples : List α
deriving DecidableEq, Repr

/-- Outcome of `decoder.decode(&packet)` for one packet
(audio_parser.rs:98-139): a decoded frame, a recoverable
`Error::DecodeError` (line 137), or any other decoder error (line 138). -/
inductive DecodeOutcome (α : Type) where
  | ok (frame : Frame α)
  | decodeError
  | otherError
deriving DecidableEq, Repr

/-- A packet returned by the format reader: its track id and the outcome the
decoder produces for it. -/
structure Packet (α : Type) where
  track_id : Nat
  decode : DecodeOutcome α
deriving DecidableEq, Repr

/-- One result of `format.next_packet()` (audio_parser.rs:75-91): a packet,
`Error::ResetRequired` (line 77), `Error::IoError` (line 84), or any other
(unrecoverable) error with its message (line 87). The trace is finite; a
symphonia stream signals its end through `Error::IoError`, and an exhausted
trace is likewise treated as end of stream. -/
inductive NextPacketEvent (α : Type) where
  | packet (p : Packet α)
  | resetRequired
  | ioError
  | fatal (msg : String)
deriving DecidableEq, Repr

/-- The probed format reader: its default track (`format.default_track()`,
audio_parser.rs:40), whether `make(&track.codec_params, ...)` succeeds
(audio_parser.rs:63-65), and the trace of `next_packet` results. -/
structure FormatReader (α : Type) where
  default_track : Option Track
  make_decoder_ok : Bool
  packets : List (NextPacketEvent α)
deriving DecidableEq, Repr

/-- An input audio file as `parse_audio_file` observes it: whether
`File::open` succeeds (audio_parser.rs:17) and the result of probing the
stream for a format (audio_parser.rs:32-34). -/
structure AudioFile (α : Type) where
  open_ok : Bool
  probe : Option (FormatReader α)
deriving DecidableEq, Repr

/-! ## `parse_audio_file` (audio_parser.rs) -/

/-- audio_parser.rs:12. -/
def WHISPER_SAMPLE_RATE : Nat := 16000

/-- The external conversion command named by both precondition panic
messages (audio_parser.rs:46 and 57). -/
def resample_cmd : String :=
  "ffmpeg -i <input_audio_file> -ac 1 -ar 16000 -sample_fmt fltp <output_audio_file>"

/-- The panic message of audio_parser.rs:44-48, with the `format!`
placeholder substituted. -/
def sample_rate_panic_msg : String :=
  "audio sample rate must be 16KHz, use " ++ resample_cmd
    ++ " to convert to mono,16KHz,f32 audio"

/-- The panic message of audio_parser.rs:54-58, with the `format!`
placeholders substituted. -/
def channels_panic_msg (channel_count : Nat) : String :=
  toString channel_count ++ " channels not supported, use " ++ resample_cmd
    ++ " to convert to mono,16KHz,f32 audio"

/-- Message of a failed `unwrap` (the exact Rust text is irrelevant to every
claim; only which paths abort matters). -/
def unwrap_failed_msg : String :=
  "called unwrap on an empty value"

/-- Message of the `unimplemented!` at audio_parser.rs:82. -/
def unimplemented_msg : String :=
  "not implemented"

/-- audio_parser.rs:121-135: the chunk a successfully decoded frame
contributes to `audio_data`. If the frame is stereo
(`audio_buf.spec().channels.count() == 2`, line 122) the interleaved samples
are passed through `whisper_rs::convert_stereo_to_mono_audio` and the result
is `unwrap`ped (line 127-128); otherwise the samples are taken unchanged
(line 130). -/
def frameChunk {α : Type} (conv : List α → Option (List α)) (frame : Frame α) :
    POutcome (List α) :=
  if frame.channel_count = 2 then
    match conv frame.samples with
    | some mono => POutcome.ok mono
    | none => POutcome.panic unwrap_failed_msg
  else
    POutcome.ok frame.samples

/-- The decode loop of audio_parser.rs:73-140. `buf_init` mirrors the
`sample_buf` option (audio_parser.rs:70, 110-119); it is set on the first
successfully decoded packet and, as in the source, the copy-and-append path
runs whenever it is set — which is exactly on every successfully decoded
packet, so it never changes the produced samples. `audio_data` is the
accumulator of audio_parser.rs:72. -/
def decodeLoop {α : Type} (conv : List α → Option (List α)) (track_id : Nat) :
    List (NextPacketEvent α) → Bool → List α → POutcome (List α)
  | [], _, audio_data => POutcome.ok audio_data
  | NextPacketEvent.resetRequired :: _, _, _ => POutcome.panic unimplemented_msg
  | NextPacketEvent.ioError :: _, _, audio_data => POutcome.ok audio_data
  | NextPacketEvent.fatal msg :: _, _, _ => POutcome.panic msg
  | NextPacketEvent.packet p :: rest, buf_init, audio_data =>
    if p.track_id ≠ track_id then
      decodeLoop conv track_id rest buf_init audio_data
    else
      match p.decode with
      | DecodeOutcome.ok frame =>
        match frameChunk conv frame with
        | POutcome.ok chunk => decodeLoop conv track_id rest true (audio_data ++ chunk)
        | POutcome.panic m => POutcome.panic m
      | DecodeOutcome.decodeError => decodeLoop conv track_id rest buf_init audio_data
      | DecodeOutcome.otherError => POutcome.ok audio_data

/-- audio_parser.rs:63-141: make the decoder (`unwrap` at line 65) and run
the decode loop starting from the empty accumulator. -/
def decodeStage {α : Type} (conv : List α → Option (List α))
    (fmt : FormatReader α) (track : Track) : POutcome (List α) :=
  if fmt.make_decoder_ok then
    decodeLoop conv track.id fmt.packets false []
  else
    POutcome.panic unwrap_failed_msg

/-- audio_parser.rs:51-60: the channel-count precondition. Skipped when the
track declares no channel layout. -/
def checkChannels {α : Type} (conv : List α → Option (List α))
    (fmt : FormatReader α) (track : Track) : POutcome (List α) :=
  match track.channels with
  | some channel_count =>
    if channel_count > 2 then
      POutcome.panic (channels_panic_msg channel_count)
    else
      decodeStage conv fmt track
  | none => decodeStage conv fmt track

/-- audio_parser.rs:42-49: the sample-rate precondition. Skipped when the
track declares no sample rate. -/
def checkSampleRate {α : Type} (conv : List α → Option (List α))
    (fmt : FormatReader α) (track : Track) : POutcome (List α) :=
  match track.sample_rate with
  | some sample_rate =>
    if sample_rate ≠ WHISPER_SAMPLE_RATE then
      POutcome.panic sample_rate_panic_msg
    else
      checkChannels conv fmt track
  | none => checkChannels conv fmt track

/-- `parse_audio_file` (audio_parser.rs:14-142): open the file (`unwrap`,
line 17), probe the format (`unwrap`, line 34), take the default track
(`unwrap`, line 40), validate sample rate and channel count, then decode. -/
def parse_audio_file {α : Type} (conv : List α → Option (List α))
    (file : AudioFile α) : POutcome (List α) :=
  if file.open_ok then
    match file.probe with
    | some fmt =>
      match fmt.default_track with
      | some track => checkSampleRate conv fmt track
      | none => POutcome.panic unwrap_failed_msg
    | none => POutcome.panic unwrap_failed_msg
  else
    POutcome.panic unwrap_failed_msg

/-! ## Transcriber side (transcriber.rs) -/

/-- `whisper_rs::SamplingStrategy`. The source constructs only
`Greedy { best_of: 1 }` (transcriber.rs:63). `BeamSearch` is kept so the
strategy type is not degenerate (its `patience: f32` field plays no role
anywhere in this repository and is omitted). -/
inductive SamplingStrategy where
  | Greedy (best_of : Int)
  | BeamSearch (beam_size : Int)
deriving DecidableEq, Repr

/-- `whisper_rs::FullParams`, modelled by the one datum this repository ever
sets or depends on: the sampling strategy passed to `FullParams::new`. -/
structure FullParams where
  strategy : SamplingStrategy
deriving DecidableEq, Repr

/-- `whisper_rs::FullParams::new(strategy)`. -/
def FullParams.new (strategy : SamplingStrategy) : FullParams :=
  { strategy := strategy }

/-- Oracle for the per-segment queries the state answers after a successful
`full` run (transcriber.rs:74-87): `full_n_segments`, and the per-index
getters `full_get_segment_text`, `full_get_segment_t0`,
`full_get_segment_t1` (indices are C `int`s, modelled as `Int`). Each call
is fallible and is `expect`ed in the source. -/
structure SegmentTable where
  full_n_segments : Except String Int
  full_get_segment_text : Int → Except String String
  full_get_segment_t0 : Int → Except String Int
  full_get_segment_t1 : Int → Except String Int

/-- Oracle for a per-call `whisper_rs::WhisperState`: `state.full(params,
samples)` either fails or yields the table of post-run segment queries. -/
structure WhisperState (α : Type) where
  full : FullParams → List α → Except String SegmentTable

/-- Oracle for a loaded `whisper_rs::WhisperContext`: the result of
`ctx.create_state()` (transcriber.rs:58-59). -/
structure WhisperContext (α : Type) where
  create_state : Except String (WhisperState α)

/-- transcriber.rs:15-20. -/
structure TranscriberOutputSegment where
  start_timestamp : Int
  end_timestamp : Int
  text : String
deriving DecidableEq, Repr

/-- transcriber.rs:4-7. -/
structure TranscriberOutput where
  segments : List TranscriberOutputSegment
deriving DecidableEq, Repr

/-- transcriber.rs:60-65: the run configuration actually used — the supplied
one if present, otherwise `FullParams::new(SamplingStrategy::Greedy { best_of: 1 })`. -/
def resolveParams (whisper_params : Option FullParams) : FullParams :=
  match whisper_params with
  | some p => p
  | none => FullParams.new (SamplingStrategy.Greedy 1)

/-- The result-fetching loop of transcriber.rs:78-93, over the index list
`0..num_segments`: for each index fetch text, start timestamp and end
timestamp (each `expect`ed, in that order) and package them as a
`TranscriberOutputSegment`, in emission order. -/
def extractLoop (tbl : SegmentTable) :
    List Nat → POutcome (List TranscriberOutputSegment)
  | [] => POutcome.ok []
  | i :: rest =>
    POutcome.bind (expectE (tbl.full_get_segment_text (Int.ofNat i))
        "failed to get segment") (fun segment =>
    POutcome.bind (expectE (tbl.full_get_segment_t0 (Int.ofNat i))
        "failed to get segment start timestamp") (fun start_timestamp =>
    POutcome.bind (expectE (tbl.full_get_segment_t1 (Int.ofNat i))
        "failed to get segment end timestamp") (fun end_timestamp =>
    POutcome.bind (extractLoop tbl rest) (fun others =>
    POutcome.ok ({ start_timestamp := start_timestamp,
                   end_timestamp := end_timestamp,
                   text := segment } :: others)))))

/-- `Transcriber::transcribe` (transcriber.rs:51-98): parse the audio file,
create a per-call state (`expect`), resolve the run configuration, run
`full` over the whole sample buffer (`expect`), read the segment count
(`expect`), extract the segments, and return `Ok` of the packaged output.
The Rust loop `for i in 0..num_segments` over a C `int` is empty when the
count is not positive, hence `Int.toNat`. The `Err` side of the returned
`Result` is modelled by the `Except` layer of the result type. -/
def transcribe {α : Type} (conv : List α → Option (List α))
    (t : WhisperContext α) (file : AudioFile α)
    (whisper_params : Option FullParams) :
    POutcome (Except String TranscriberOutput) :=
  POutcome.bind (parse_audio_file conv file) (fun audio_data =>
  POutcome.bind (expectE t.create_state "Failed to create state") (fun state =>
  POutcome.bind (expectE (state.full (resolveParams whisper_params) audio_data)
      "failed to run the model") (fun tbl =>
  POutcome.bind (expectE tbl.full_n_segments
      "failed to get number of segments") (fun num_segments =>
  POutcome.bind (extractLoop tbl (List.range num_segments.toNat))
      (fun output_segments =>
  POutcome.ok (Except.ok { segments := output_segments }))))))

/-- Spec-side description of the decode loop's output (spec §4.2: "append to
the accumulating output buffer in arrival order", "Output: ... in
chronological order matching the source file's timeline"): the in-order
concatenation of the per-packet decoded (and downmixed) chunks of the
selected track, truncated where the loop terminates early and aborting
where the loop aborts. -/
def chunkConcatSpec {α : Type} (conv : List α → Option (List α))
    (track_id : Nat) : List (NextPacketEvent α) → POutcome (List α)
  | [] => POutcome.ok []
  | NextPacketEvent.resetRequired :: _ => POutcome.panic unimplemented_msg
  | NextPacketEvent.ioError :: _ => POutcome.ok []
  | NextPacketEvent.fatal msg :: _ => POutcome.panic msg
  | NextPacketEvent.packet p :: rest =>
    if p.track_id ≠ track_id then
      chunkConcatSpec conv track_id rest
    else
      match p.decode with
      | DecodeOutcome.ok frame =>
        POutcome.bind (frameChunk conv frame) (fun chunk =>
        POutcome.bind (chunkConcatSpec conv track_id rest) (fun tail =>
        POutcome.ok (chunk ++ tail)))
      | DecodeOutcome.decodeError => chunkConcatSpec conv track_id rest
      | DecodeOutcome.otherError => POutcome.ok []

/-- `true` exactly when `transcribe` returned normally with the `Err`
variant of its `Result` — the behaviour claim C9 rules out. -/
def returns_recoverable_err : POutcome (Except String TranscriberOutput) → Bool
  | POutcome.ok (Except.error _) => true
  | _ => false

@[simp]
theorem POutcome.bind_assoc {β γ δ : Type} (x : POutcome β)
    (f : β → POutcome γ) (g : γ → POutcome δ) :
    POutcome.bind (POutcome.bind x f) g
      = POutcome.bind x (fun a => POutcome.bind (f a) g) := by
  cases x <;> rfl

/-! ## Concrete fixtures used by witnesses and counterexamples -/

/-- A concrete stand-in for `convert_stereo_to_mono_audio` over `Int`
samples, usable wherever the exact downmix rule is irrelevant. -/
def convW : List Int → Option (List Int) := fun l => some l

/-- A concrete valid track: declared 16 kHz, mono, id 0. -/
def trackW : Track :=
  { sample_rate := some 16000, channels := some 1, id := 0 }

/-- A concrete well-formed input file whose stream ends immediately. -/
def fileW : AudioFile Int :=
  { open_ok := true,
    probe := some { default_track := some trackW,
                    make_decoder_ok := true,
                    packets := [NextPacketEvent.ioError] } }

/-- A concrete input whose track declares a 48 kHz sample rate. -/
def file48k : AudioFile Int :=
  { open_ok := true,
    probe := some { default_track := some { sample_rate := some 48000,
                                            channels := some 1, id := 0 },
                    make_decoder_ok := true,
                    packets := [NextPacketEvent.ioError] } }

/-- A concrete input whose track declares 3 channels (16 kHz). -/
def file3ch : AudioFile Int :=
  { open_ok := true,
    probe := some { default_track := some { sample_rate := some 16000,
                                            channels := some 3, id := 0 },
                    make_decoder_ok := true,
                    packets := [NextPacketEvent.ioError] } }

/-- A concrete input whose track declares neither a sample rate nor a
channel layout. -/
def fileNoMeta : AudioFile Int :=
  { open_ok := true,
    probe := some { default_track := some { sample_rate := none,
                                            channels := none, id := 0 },
                    make_decoder_ok := true,
                    packets := [NextPacketEvent.ioError] } }

/-- A concrete input where one packet decodes to the mono sample `[5]` and
the next packet fails with an unrecoverable (non-`DecodeError`) decoder
error. -/
def fileDecodeFatal : AudioFile Int :=
  { open_ok := true,
    probe := some
      { default_track := some trackW,
        make_decoder_ok := true,
        packets :=
          [NextPacketEvent.packet
            { track_id := 0,
              decode := DecodeOutcome.ok { channel_count := 1, samples := [5] } },
           NextPacketEvent.packet
            { track_id := 0, decode := DecodeOutcome.otherError }] } }

/-- A concrete segment table: one segment, text "hello", spanning 0..5. -/
def tblW : SegmentTable :=
  { full_n_segments := Except.ok 1,
    full_get_segment_text := fun _ => Except.ok "hello",
    full_get_segment_t0 := fun _ => Except.ok 0,
    full_get_segment_t1 := fun _ => Except.ok 5 }

/-- A concrete whisper state whose run always succeeds with `tblW`. -/
def stateW : WhisperState Int :=
  { full := fun _ _ => Except.ok tblW }

/-- A concrete loaded whisper context delivering `stateW`. -/
def ctxW : WhisperContext Int :=
  { create_state := Except.ok stateW }

/-- The transcription output the fixtures above produce. -/
def outW : TranscriberOutput :=
  { segments := [{ start_timestamp := 0, end_timestamp := 5, text := "hello" }] }

/-! ## Claims -/

/-- C4: in the decode loop, a recoverable per-packet decode error is
swallowed — the packet contributes no samples and the loop continues with
the remaining packets unchanged — and a stream-level I/O error from
`next_packet` terminates the loop, the parse returning exactly the samples
accumulated up to that point. -/
theorem decode_error_skipped_io_error_truncates {α : Type}
    (conv : List α → Option (List α)) (track_id : Nat)
    (rest : List (NextPacketEvent α)) (b : Bool) (acc : List α) :
    decodeLoop conv track_id
        (NextPacketEvent.packet { track_id := track_id,
                                  decode := DecodeOutcome.decodeError } :: rest) b acc
      = decodeLoop conv track_id rest b acc ∧
    decodeLoop conv track_id (NextPacketEvent.ioError :: rest) b acc
      = POutcome.ok acc := by
  constructor
  · simp [decodeLoop]
  · simp [decodeLoop]

/-- C7: a successfully decoded frame with exactly 2 channels has its
interleaved samples converted by the engine's stereo-to-mono rule before
being appended to the output buffer; a frame with any other channel count
is appended unchanged. -/
theorem stereo_downmix_per_frame {α : Type}
    (conv : List α → Option (List α)) (track_id : Nat) (frame : Frame α)
    (rest : List (NextPacketEvent α)) (b : Bool) (acc : List α) :
    (frame.channel_count = 2 →
      ∀ mono, conv frame.samples = some mono →
        decodeLoop conv track_id
            (NextPacketEvent.packet { track_id := track_id,
                                      decode := DecodeOutcome.ok frame } :: rest) b acc
          = decodeLoop conv track_id rest true (acc ++ mono)) ∧
    (frame.channel_count ≠ 2 →
      decodeLoop conv track_id
          (NextPacketEvent.packet { track_id := track_id,
                                    decode := DecodeOutcome.ok frame } :: rest) b acc
        = decodeLoop conv track_id rest true (acc ++ frame.samples)) := by
  constructor
  · intro h2 mono hconv
    simp [decodeLoop, frameChunk, h2, hconv]
  · intro h2
    simp [decodeLoop, frameChunk, h2]

/-- Witness for `stereo_downmix_per_frame` at concrete frames: a stereo
frame `[1, 2]` goes through the conversion (which `convW` maps to `[1, 2]`),
a mono frame `[3]` is appended unchanged. -/
theorem stereo_downmix_per_frame_witness :
    decodeLoop convW 0
        [NextPacketEvent.packet
          { track_id := 0,
            decode := DecodeOutcome.ok { channel_count := 2, samples := [1, 2] } }]
        false []
      = decodeLoop convW 0 [] true ([] ++ [1, 2]) ∧
    decodeLoop convW 0
        [NextPacketEvent.packet
          { track_id := 0,
            decode := DecodeOutcome.ok { channel_count := 1, samples := [3] } }]
        false []
      = decodeLoop convW 0 [] true ([] ++ [3]) := by
  constructor
  · exact (stereo_downmix_per_frame convW 0
      { channel_count := 2, samples := [1, 2] } [] false []).1 rfl [1, 2] rfl
  · exact (stereo_downmix_per_frame convW 0
      { channel_count := 1, samples := [3] } [] false []).2 (by decide)

/-- C8: when no run configuration is supplied, `transcribe` behaves exactly
as if the greedy strategy with `best_of = 1` had been supplied, because the
resolved configuration for `None` is `FullParams::new(Greedy, best_of 1)`;
a supplied configuration is used exactly as given. -/
theorem default_params_greedy_best_of_one {α : Type}
    (conv : List α → Option (List α)) (t : WhisperContext α)
    (file : AudioFile α) (p : FullParams) :
    transcribe conv t file none
      = transcribe conv t file (some (FullParams.new (SamplingStrategy.Greedy 1))) ∧
    resolveParams none = FullParams.new (SamplingStrategy.Greedy 1) ∧
    resolveParams (some p) = p := by
  exact ⟨rfl, rfl, rfl⟩

/-- C2: for an input whose default track declares a sample rate other than
16000 Hz, `transcribe` aborts with the fatal sample-rate precondition
message — which names the external resample command — and this holds for
every inference context and configuration, so the inference engine is never
invoked on that input. -/
theorem transcribe_rejects_non_16khz {α : Type}
    (conv : List α → Option (List α)) (file : AudioFile α)
    (fmt : FormatReader α) (track : Track) (sr : Nat)
    (hopen : file.open_ok = true) (hprobe : file.probe = some fmt)
    (htrack : fmt.default_track = some track)
    (hsr : track.sample_rate = some sr) (hne : sr ≠ WHISPER_SAMPLE_RATE) :
    (∀ (t : WhisperContext α) (wp : Option FullParams),
      transcribe conv t file wp = POutcome.panic sample_rate_panic_msg) ∧
    (∃ before after, sample_rate_panic_msg = before ++ resample_cmd ++ after) := by
  have hp : parse_audio_file conv file = POutcome.panic sample_rate_panic_msg := by
    simp [parse_audio_file, hopen, hprobe, htrack, checkSampleRate, hsr, hne]
  constructor
  · intro t wp
    simp [transcribe, hp]
  · exact ⟨"audio sample rate must be 16KHz, use ",
           " to convert to mono,16KHz,f32 audio", rfl⟩

/-- Witness for `transcribe_rejects_non_16khz`: a concrete 48 kHz input is
rejected with the sample-rate message for the concrete fixture context. -/
theorem transcribe_rejects_non_16khz_witness :
    transcribe convW ctxW file48k none = POutcome.panic sample_rate_panic_msg :=
  (transcribe_rejects_non_16khz convW file48k
      { default_track := some { sample_rate := some 48000, channels := some 1, id := 0 },
        make_decoder_ok := true,
        packets := [NextPacketEvent.ioError] }
      { sample_rate := some 48000, channels := some 1, id := 0 }
      48000 rfl rfl rfl rfl (by decide)).1 ctxW none

/-- C3: for an input passing the sample-rate precondition whose default
track declares a channel count, the channel validation aborts with the
fatal channel message (naming the external conversion command) exactly when
the count exceeds 2; with 1 or 2 declared channels the parse passes this
validation and proceeds to the decoding stage. -/
theorem channel_validation_iff_gt_two {α : Type}
    (conv : List α → Option (List α)) (file : AudioFile α)
    (fmt : FormatReader α) (track : Track) (ch : Nat)
    (hopen : file.open_ok = true) (hprobe : file.probe = some fmt)
    (htrack : fmt.default_track = some track)
    (hsr : track.sample_rate = none ∨ track.sample_rate = some WHISPER_SAMPLE_RATE)
    (hch : track.channels = some ch) :
    (2 < ch →
      parse_audio_file conv file = POutcome.panic (channels_panic_msg ch)) ∧
    (ch ≤ 2 →
      parse_audio_file conv file = decodeStage conv fmt track) := by
  have hparse : parse_audio_file conv file = checkChannels conv fmt track := by
    rcases hsr with h | h <;>
      simp [parse_audio_file, hopen, hprobe, htrack, checkSampleRate, h]
  constructor
  · intro hgt
    rw [hparse]
    simp [checkChannels, hch, hgt]
  · intro hle
    rw [hparse]
    simp [checkChannels, hch, Nat.not_lt.mpr hle]

/-- Witness for `channel_validation_iff_gt_two`: a concrete 3-channel input
aborts with the channel message; the 1-channel fixture reaches the decode
stage. -/
theorem channel_validation_iff_gt_two_witness :
    parse_audio_file convW file3ch = POutcome.panic (channels_panic_msg 3) ∧
    parse_audio_file convW fileW
      = decodeStage convW
          { default_track := some trackW, make_decoder_ok := true,
            packets := [NextPacketEvent.ioError] } trackW := by
  constructor
  · exact (channel_validation_iff_gt_two convW file3ch
      { default_track := some { sample_rate := some 16000, channels := some 3, id := 0 },
        make_decoder_ok := true, packets := [NextPacketEvent.ioError] }
      { sample_rate := some 16000, channels := some 3, id := 0 }
      3 rfl rfl rfl (Or.inr rfl) rfl).1 (by decide)
  · exact (channel_validation_iff_gt_two convW fileW
      { default_track := some trackW, make_decoder_ok := true,
        packets := [NextPacketEvent.ioError] }
      trackW 1 rfl rfl rfl (Or.inr rfl) rfl).2 (by decide)

/-- C10: when the default track's codec parameters declare no sample rate,
the sample-rate precondition is skipped and the parse proceeds directly to
the channel check; when no channel layout is declared, the channel
precondition is skipped and the parse proceeds to the decoding stage. -/
theorem missing_metadata_skips_validation {α : Type}
    (conv : List α → Option (List α)) (file : AudioFile α)
    (fmt : FormatReader α) (track : Track)
    (hopen : file.open_ok = true) (hprobe : file.probe = some fmt)
    (htrack : fmt.default_track = some track) :
    (track.sample_rate = none →
      parse_audio_file conv file = checkChannels conv fmt track) ∧
    (track.channels = none →
      checkChannels conv fmt track = decodeStage conv fmt track) := by
  constructor
  · intro h
    simp [parse_audio_file, hopen, hprobe, htrack, checkSampleRate, h]
  · intro h
    simp [checkChannels, h]

/-- Witness for `missing_metadata_skips_validation`: the concrete
metadata-free input skips both checks and decodes (to the empty buffer). -/
theorem missing_metadata_skips_validation_witness :
    parse_audio_file convW fileNoMeta
      = checkChannels convW
          { default_track := some { sample_rate := none, channels := none, id := 0 },
            make_decoder_ok := true, packets := [NextPacketEvent.ioError] }
          { sample_rate := none, channels := none, id := 0 } ∧
    checkChannels convW
        { default_track := some { sample_rate := none, channels := none, id := 0 },
          make_decoder_ok := true, packets := [NextPacketEvent.ioError] }
        { sample_rate := none, channels := none, id := 0 }
      = decodeStage convW
          { default_track := some { sample_rate := none, channels := none, id := 0 },
            make_decoder_ok := true, packets := [NextPacketEvent.ioError] }
          { sample_rate := none, channels := none, id := 0 } := by
  constructor
  · exact (missing_metadata_skips_validation convW fileNoMeta
      { default_track := some { sample_rate := none, channels := none, id := 0 },
        make_decoder_ok := true, packets := [NextPacketEvent.ioError] }
      { sample_rate := none, channels := none, id := 0 } rfl rfl rfl).1 rfl
  · exact (missing_metadata_skips_validation convW fileNoMeta
      { default_track := some { sample_rate := none, channels := none, id := 0 },
        make_decoder_ok := true, packets := [NextPacketEvent.ioError] }
      { sample_rate := none, channels := none, id := 0 } rfl rfl rfl).2 rfl

/-- Counterexample to C5 as stated: `fileDecodeFatal` contains an
unrecoverable (non-`DecodeError`) error arising while decoding its second
packet, yet the whole request completes normally — the loop breaks, the
partial buffer `[5]` is returned, and inference runs on it — instead of
aborting. -/
theorem decode_side_fatal_error_not_fatal_cex :
    parse_audio_file convW fileDecodeFatal = POutcome.ok [5] ∧
    transcribe convW ctxW fileDecodeFatal none = POutcome.ok (Except.ok outW) := by
  constructor
  · rfl
  · rfl

/-- C5 amended: an unrecoverable error raised while reading the next packet
is fatal (the request aborts with the error's message; a required decoder
reset likewise aborts), but an unrecoverable (non-`DecodeError`) error
raised while decoding a packet is not: it terminates the decode loop early
and the parse returns the samples accumulated so far. -/
theorem unrecoverable_error_fatality_split {α : Type}
    (conv : List α → Option (List α)) (track_id : Nat) (msg : String)
    (rest : List (NextPacketEvent α)) (b : Bool) (acc : List α) :
    decodeLoop conv track_id (NextPacketEvent.fatal msg :: rest) b acc
      = POutcome.panic msg ∧
    decodeLoop conv track_id (NextPacketEvent.resetRequired :: rest) b acc
      = POutcome.panic unimplemented_msg ∧
    decodeLoop conv track_id
        (NextPacketEvent.packet { track_id := track_id,
                                  decode := DecodeOutcome.otherError } :: rest) b acc
      = POutcome.ok acc := by
  refine ⟨rfl, rfl, ?_⟩
  simp [decodeLoop]

/-- C6: the decode loop returns, on top of its accumulator, exactly the
in-order concatenation of the per-packet decoded (and downmixed) chunks of
the selected track, in the order the packets were read — samples of an
earlier packet always precede samples of a later one. -/
theorem samples_in_packet_order {α : Type}
    (conv : List α → Option (List α)) (track_id : Nat)
    (events : List (NextPacketEvent α)) (b : Bool) (acc : List α) :
    decodeLoop conv track_id events b acc
      = POutcome.bind (chunkConcatSpec conv track_id events)
          (fun chunks => POutcome.ok (acc ++ chunks)) := by
  induction events generalizing b acc with
  | nil => simp [decodeLoop, chunkConcatSpec]
  | cons e rest ih =>
    cases e with
    | resetRequired => simp [decodeLoop, chunkConcatSpec]
    | ioError => simp [decodeLoop, chunkConcatSpec]
    | fatal msg => simp [decodeLoop, chunkConcatSpec]
    | packet p =>
      by_cases hid : p.track_id = track_id
      · cases hdec : p.decode with
        | ok frame =>
          cases hc : frameChunk conv frame with
          | ok chunk =>
            simp [decodeLoop, chunkConcatSpec, hid, hdec, hc, ih, List.append_assoc]
          | panic m =>
            simp [decodeLoop, chunkConcatSpec, hid, hdec, hc]
        | decodeError =>
          simp [decodeLoop, chunkConcatSpec, hid, hdec, ih]
        | otherError =>
          simp [decodeLoop, chunkConcatSpec, hid, hdec]
      · simp [decodeLoop, chunkConcatSpec, hid, ih]

/-- What a successful run of the result-fetching loop guarantees: one
output segment per index, in order, whose fields are exactly what the
engine's getters answered at that index. -/
theorem extractLoop_ok {tbl : SegmentTable} :
    ∀ (idxs : List Nat) (segs : List TranscriberOutputSegment),
      extractLoop tbl idxs = POutcome.ok segs →
      segs.length = idxs.length ∧
      ∀ (j : Nat) (hj : j < idxs.length) (hj' : j < segs.length),
        tbl.full_get_segment_text (Int.ofNat (idxs.get ⟨j, hj⟩))
          = Except.ok ((segs.get ⟨j, hj'⟩).text) ∧
        tbl.full_get_segment_t0 (Int.ofNat (idxs.get ⟨j, hj⟩))
          = Except.ok ((segs.get ⟨j, hj'⟩).start_timestamp) ∧
        tbl.full_get_segment_t1 (Int.ofNat (idxs.get ⟨j, hj⟩))
          = Except.ok ((segs.get ⟨j, hj'⟩).end_timestamp) := by
  intro idxs
  induction idxs with
  | nil =>
    intro segs h
    simp only [extractLoop, POutcome.ok.injEq] at h
    subst h
    refine ⟨rfl, ?_⟩
    intro j hj
    exact absurd hj (by simp)
  | cons i rest ih =>
    intro segs h
    unfold extractLoop at h
    cases htext : tbl.full_get_segment_text (Int.ofNat i) with
    | error e => rw [htext] at h; simp at h
    | ok txt =>
      rw [htext] at h
      simp only [expectE_ok, POutcome.bind_ok] at h
      cases ht0 : tbl.full_get_segment_t0 (Int.ofNat i) with
      | error e => rw [ht0] at h; simp at h
      | ok t0 =>
        rw [ht0] at h
        simp only [expectE_ok, POutcome.bind_ok] at h
        cases ht1 : tbl.full_get_segment_t1 (Int.ofNat i) with
        | error e => rw [ht1] at h; simp at h
        | ok t1 =>
          rw [ht1] at h
          simp only [expectE_ok, POutcome.bind_ok] at h
          cases hrec : extractLoop tbl rest with
          | panic m => rw [hrec] at h; simp at h
          | ok others =>
            rw [hrec] at h
            simp only [POutcome.bind_ok, POutcome.ok.injEq] at h
            subst h
            obtain ⟨ihlen, ihget⟩ := ih others hrec
            refine ⟨by simp [ihlen], ?_⟩
            intro j hj hj'
            cases j with
            | zero => exact ⟨htext, ht0, ht1⟩
            | succ j2 =>
              have hj2 : j2 < rest.length := by simpa using hj
              have hj2' : j2 < others.length := by simpa using hj'
              simpa using ihget j2 hj2 hj2'

/-- C1: whenever `transcribe` returns a result, the result holds exactly
`full_n_segments`-many segments (the loop over a C `int` count is empty for
a non-positive count, hence `Int.toNat`), and the `i`-th segment's text,
start timestamp and end timestamp are exactly the engine's
`full_get_segment_text`, `full_get_segment_t0` and `full_get_segment_t1`
answers at index `i`, in the engine's emission order. -/
theorem transcribe_returns_engine_segments {α : Type}
    (conv : List α → Option (List α)) (t : WhisperContext α)
    (file : AudioFile α) (wp : Option FullParams) (out : TranscriberOutput)
    (h : transcribe conv t file wp = POutcome.ok (Except.ok out)) :
    ∃ audio_data state tbl n,
      parse_audio_file conv file = POutcome.ok audio_data ∧
      t.create_state = Except.ok state ∧
      state.full (resolveParams wp) audio_data = Except.ok tbl ∧
      tbl.full_n_segments = Except.ok n ∧
      out.segments.length = n.toNat ∧
      ∀ (i : Nat) (hi : i < out.segments.length),
        tbl.full_get_segment_text (Int.ofNat i)
          = Except.ok ((out.segments.get ⟨i, hi⟩).text) ∧
        tbl.full_get_segment_t0 (Int.ofNat i)
          = Except.ok ((out.segments.get ⟨i, hi⟩).start_timestamp) ∧
        tbl.full_get_segment_t1 (Int.ofNat i)
          = Except.ok ((out.segments.get ⟨i, hi⟩).end_timestamp) := by
  unfold transcribe at h
  cases hp : parse_audio_file conv file with
  | panic m => rw [hp] at h; simp at h
  | ok audio_data =>
    rw [hp] at h
    simp only [POutcome.bind_ok] at h
    cases hcs : t.create_state with
    | error e => rw [hcs] at h; simp at h
    | ok state =>
      rw [hcs] at h
      simp only [expectE_ok, POutcome.bind_ok] at h
      cases hfull : state.full (resolveParams wp) audio_data with
      | error e => rw [hfull] at h; simp at h
      | ok tbl =>
        rw [hfull] at h
        simp only [expectE_ok, POutcome.bind_ok] at h
        cases hn : tbl.full_n_segments with
        | error e => rw [hn] at h; simp at h
        | ok n =>
          rw [hn] at h
          simp only [expectE_ok, POutcome.bind_ok] at h
          cases hex : extractLoop tbl (List.range n.toNat) with
          | panic m => rw [hex] at h; simp at h
          | ok segs =>
            rw [hex] at h
            simp only [POutcome.bind_ok, POutcome.ok.injEq, Except.ok.injEq] at h
            subst h
            obtain ⟨hlen, hget⟩ := extractLoop_ok (List.range n.toNat) segs hex
            refine ⟨audio_data, state, tbl, n, rfl, rfl, hfull, hn, ?_, ?_⟩
            · simpa using hlen
            · intro i hi
              have hj : i < (List.range n.toNat).length := hlen ▸ hi
              have hres := hget i hj hi
              simpa [List.get_eq_getElem, List.getElem_range] using hres

/-- Witness for `transcribe_returns_engine_segments`: the concrete fixture
run (empty stream, one reported segment "hello" spanning 0..5) satisfies
all of its conclusions. -/
theorem transcribe_returns_engine_segments_witness :
    ∃ audio_data state tbl n,
      parse_audio_file convW fileW = POutcome.ok audio_data ∧
      ctxW.create_state = Except.ok state ∧
      state.full (resolveParams none) audio_data = Except.ok tbl ∧
      tbl.full_n_segments = Except.ok n ∧
      outW.segments.length = n.toNat ∧
      ∀ (i : Nat) (hi : i < outW.segments.length),
        tbl.full_get_segment_text (Int.ofNat i)
          = Except.ok ((outW.segments.get ⟨i, hi⟩).text) ∧
        tbl.full_get_segment_t0 (Int.ofNat i)
          = Except.ok ((outW.segments.get ⟨i, hi⟩).start_timestamp) ∧
        tbl.full_get_segment_t1 (Int.ofNat i)
          = Except.ok ((outW.segments.get ⟨i, hi⟩).end_timestamp) :=
  transcribe_returns_engine_segments convW ctxW fileW none outW (by rfl)

/-- C9: `transcribe` never returns the `Err` variant of its `Result`: every
internal failure aborts (panics) instead, so a normal return is always
`Ok`. -/
theorem transcribe_never_returns_err {α : Type}
    (conv : List α → Option (List α)) (t : WhisperContext α)
    (file : AudioFile α) (wp : Option FullParams) :
    returns_recoverable_err (transcribe conv t file wp) = false := by
  unfold transcribe
  cases parse_audio_file conv file with
  | panic m => rfl
  | ok audio_data =>
    simp only [POutcome.bind_ok]
    cases t.create_state with
    | error e => rfl
    | ok state =>
      simp only [expectE_ok, POutcome.bind_ok]
      cases state.full (resolveParams wp) audio_data with
      | error e => rfl
      | ok tbl =>
        simp only [expectE_ok, POutcome.bind_ok]
        cases tbl.full_n_segments with
        | error e => rfl
        | ok n =>
          simp only [expectE_ok, POutcome.bind_ok]
          cases extractLoop tbl (List.range n.toNat) with
          | panic m => rfl
          | ok segs => rfl

end SimpleTranscribe
